import Mathlib

/-!
Verification of the `SynoSurveillanceStation` facade
(`src/synology_dsm/api/surveillance_station/__init__.py`).

The facade is embedded shallowly:

* the camera registry `self._data` (an insertion-ordered Python dict from
  integer camera IDs to `SynoCamera` objects) becomes an association list
  `Registry` with Python-dict semantics (membership test, in-place value
  replacement, append of fresh keys, iteration in insertion order);
* the `self._dsm.get` transport becomes a `Backend` oracle mapping each
  request to either a typed response or a `TransportError`;
* every facade method becomes a pure function that returns the new registry,
  the list of requests it issued (in order), and its result or error.

The `SynoCamera` entity and the constants live in `camera.py` / `const.py`,
which are not part of the sources; those parts are modelled from the spec
(each such definition says so in its doc comment).
-/

namespace SurveillanceStation

/-- An error raised by the underlying transport (`self._dsm.get`):
network, auth or JSON failure. Opaque to the facade. -/
structure TransportError where
  msg : String
deriving DecidableEq

/-- Modelled from the spec: the `source` enum sent by `MDParamSave`
(`MOTION_DETECTION_BY_SURVEILLANCE` / `MOTION_DETECTION_DISABLED` from
`const.py`, which is not among the sources); the spec only requires the two
values to be distinguished. -/
inductive MotionDetectionSource where
  | bySurveillance
  | disabled
deriving DecidableEq

/-- A camera record of the `Camera List` response (`camera_data`): the `id`
field is read by the facade, the display attributes are opaque payload. -/
structure CameraData where
  id : Nat
  payload : String
deriving DecidableEq

/-- Modelled from the spec: the motion-detection data returned by
`MotionEnum` and applied by `SynoCamera.update_motion_detection`
(`camera.py` is not among the sources); the spec keeps only the
motion-detection enabled flag. -/
structure MotionData where
  enabled : Bool
deriving DecidableEq

/-- Modelled from the spec: the live-view path entity — a set of
transport-specific streaming URLs (glossary of the spec). -/
structure LiveViewData where
  mjpeg_http : String
  multicast : String
  mxpeg_http : String
  rtsp_http : String
  rtsp : String
deriving DecidableEq

/-- A record of the `GetLiveViewPath` response: the `id` field is read by
the facade, the rest is applied to the camera's live-view entity. -/
structure LiveViewRecord where
  id : Nat
  paths : LiveViewData
deriving DecidableEq

/-- Modelled from the spec: a `SynoCamera` entry of the registry
(`camera.py` is not among the sources): identifier and display attributes
from the list call, the cached motion-detection data (absent until
`update_motion_detection` runs), and the live-view entity (absent until
`live_view.update` runs — "populated" means present). -/
structure SynoCamera where
  data : CameraData
  motion : Option MotionData
  live_view : Option LiveViewData
deriving DecidableEq

/-- Modelled from the spec: `SynoCamera(camera_data)` — a fresh entry built
from list data, with no motion or live-view data yet. -/
def SynoCamera.ofData (cd : CameraData) : SynoCamera :=
  ⟨cd, none, none⟩

/-- Modelled from the spec: `SynoCamera.update(camera_data)` merges the new
list fields into the entry. -/
def SynoCamera.updateData (c : SynoCamera) (cd : CameraData) : SynoCamera :=
  { c with data := cd }

/-- Modelled from the spec: `SynoCamera.update_motion_detection(data)`
caches the returned motion-detection data. -/
def SynoCamera.updateMotion (c : SynoCamera) (md : MotionData) : SynoCamera :=
  { c with motion := some md }

/-- Modelled from the spec: `camera.live_view.update(live_view_data)`
applies the returned live-view record, populating the live-view entity. -/
def SynoCamera.applyLiveView (c : SynoCamera) (lv : LiveViewRecord) : SynoCamera :=
  { c with live_view := some lv.paths }

/-- The camera registry `self._data`: a Python dict from camera ID to
`SynoCamera`, embedded as an insertion-ordered association list. -/
abbrev Registry := List (Nat × SynoCamera)

/-- Python dict lookup `d[k]` (as an `Option`; `none` is a `KeyError`). -/
def dictGet? : Registry → Nat → Option SynoCamera
  | [], _ => none
  | (k', v') :: rest, k => if k' = k then some v' else dictGet? rest k

/-- Python dict assignment `d[k] = v`: replaces in place if `k` is present,
otherwise appends (insertion order). -/
def dictSet : Registry → Nat → SynoCamera → Registry
  | [], k, v => [(k, v)]
  | (k', v') :: rest, k, v =>
    if k' = k then (k, v) :: rest else (k', v') :: dictSet rest k v

/-- Iteration order of a Python dict: its keys in insertion order. -/
def regKeys (reg : Registry) : List Nat :=
  reg.map Prod.fst

/-- The `data` field of the `Camera List` response: `{"cameras": [...]}`. -/
structure ListData where
  cameras : List CameraData
deriving DecidableEq

/-- A response carrying only a `success` boolean. -/
structure SuccessResponse where
  success : Bool
deriving DecidableEq

/-- An opaque raw response returned to the caller unparsed
(snapshot capture/download, `MDParamSave`). -/
structure RawResponse where
  payload : String
deriving DecidableEq

/-- The `data` field of the `HomeMode GetInfo` response; `onState` models
its `on` field. -/
structure HomeModeData where
  onState : Bool
deriving DecidableEq

/-- The transport oracle: one field per endpoint the facade calls, each
mapping the request parameters to a typed response or a transport error. -/
structure Backend where
  listResponse : Except TransportError ListData
  motionResponse : Nat → Except TransportError MotionData
  liveViewResponse : String → Except TransportError (List LiveViewRecord)
  enableResponse : String → Except TransportError SuccessResponse
  disableResponse : String → Except TransportError SuccessResponse
  takeSnapshotResponse : Nat → Nat → Except TransportError RawResponse
  loadSnapshotResponse : Nat → Nat → Except TransportError RawResponse
  mdParamSaveResponse : Nat → MotionDetectionSource → Except TransportError RawResponse
  homeModeInfoResponse : Except TransportError HomeModeData
  homeModeSwitchResponse : String → Except TransportError SuccessResponse

/-- A request issued through `self._dsm.get`, with the parameters the
facade passes. -/
inductive Request where
  | list (maxVersion : Nat)
  | motionEnum (camId : Nat)
  | getLiveViewPath (idList : String)
  | enable (idList : String)
  | disable (idList : String)
  | takeSnapshot (camId : Nat) (blSave : Nat)
  | loadSnapshot (id : Nat) (imgSize : Nat)
  | mdParamSave (camId : Nat) (source : MotionDetectionSource)
  | homeModeGetInfo
  | homeModeSwitch (onValue : String)
deriving DecidableEq

/-- Whether a request is a `GetLiveViewPath` call. -/
def Request.isLiveViewReq : Request → Bool
  | .getLiveViewPath _ => true
  | _ => false

/-- An error escaping `update()`: a transport failure, or the `KeyError`
of `self._data[live_view_data["id"]]` on an unknown ID. -/
inductive UpdateError where
  | transport (e : TransportError)
  | keyNotFound (id : Nat)
deriving DecidableEq

/-- One camera record of the list step of `update()`: merge into the
existing entry or create a new one (`self._data[camera_data["id"]] = ...`). -/
def listStep (r : Registry) (cd : CameraData) : Registry :=
  match dictGet? r cd.id with
  | some cam => dictSet r cd.id (cam.updateData cd)
  | none => dictSet r cd.id (SynoCamera.ofData cd)

/-- The list step of `update()`: fold `listStep` over the returned camera
records in order. -/
def applyListData (reg : Registry) (cams : List CameraData) : Registry :=
  cams.foldl listStep reg

/-- The motion step of `update()`: one `MotionEnum` call per registry key,
in insertion order, applying each result; a transport failure aborts the
loop, keeping the updates already applied. Returns the registry, the
requests issued, and the first failure if any. -/
def motionSteps (b : Backend) (reg : Registry) :
    List Nat → Registry × List Request × Option TransportError
  | [] => (reg, [], none)
  | k :: ks =>
    match b.motionResponse k with
    | .error e => (reg, [Request.motionEnum k], some e)
    | .ok md =>
      let reg' :=
        match dictGet? reg k with
        | some cam => dictSet reg k (cam.updateMotion md)
        | none => reg
      let rest := motionSteps b reg' ks
      (rest.1, Request.motionEnum k :: rest.2.1, rest.2.2)

/-- The apply loop over the `GetLiveViewPath` response: each record is
applied to `self._data[live_view_data["id"]]`; an unknown ID raises a
`KeyError`, aborting the loop. Returns the registry and the offending ID,
if any. -/
def applyLiveViews (reg : Registry) : List LiveViewRecord → Registry × Option Nat
  | [] => (reg, none)
  | lv :: rest =>
    match dictGet? reg lv.id with
    | none => (reg, some lv.id)
    | some cam => applyLiveViews (dictSet reg lv.id (cam.applyLiveView lv)) rest

/-- `",".join(str(k) for k in self._data)`. -/
def commaJoin (ks : List Nat) : String :=
  String.intercalate "," (ks.map toString)

/-- The live-view step of `update()`: return early if the registry is
empty, otherwise one `GetLiveViewPath` call with the comma-joined key list,
applying each returned record. -/
def liveViewStep (b : Backend) (reg : Registry) :
    Registry × List Request × Option UpdateError :=
  if reg.isEmpty then (reg, [], none)
  else
    let idStr := commaJoin (regKeys reg)
    match b.liveViewResponse idStr with
    | .error e => (reg, [Request.getLiveViewPath idStr], some (.transport e))
    | .ok lvs =>
      let r := applyLiveViews reg lvs
      (r.1, [Request.getLiveViewPath idStr], r.2.map UpdateError.keyNotFound)

/-- `SynoSurveillanceStation.update()`: clear the registry, fetch the
camera list (`max_version=7`), merge it, fetch motion data per camera,
then fetch and apply live-view paths. `prior` is the registry before the
call (discarded by `self._data = {}`). Returns the registry after the call
(partial if a step failed), the requests issued, and the escaping error,
if any. -/
def update (b : Backend) (prior : Registry) :
    Registry × List Request × Option UpdateError :=
  match b.listResponse with
  | .error e => ([], [Request.list 7], some (.transport e))
  | .ok ld =>
    let reg1 := applyListData [] ld.cameras
    let m := motionSteps b reg1 (regKeys reg1)
    match m.2.2 with
    | some e => (m.1, Request.list 7 :: m.2.1, some (.transport e))
    | none =>
      let l := liveViewStep b m.1
      (l.1, Request.list 7 :: (m.2.1 ++ l.2.1), l.2.2)

/-- A failed registry lookup: the `KeyError` of `self._data[camera_id]`. -/
inductive LookupError where
  | keyNotFound (id : Nat)
deriving DecidableEq

/-- `get_camera(camera_id)`: `self._data[camera_id]`. -/
def get_camera (reg : Registry) (camera_id : Nat) : Except LookupError SynoCamera :=
  match dictGet? reg camera_id with
  | none => .error (.keyNotFound camera_id)
  | some cam => .ok cam

/-- `is_motion_detection_enabled(camera_id)`:
`self._data[camera_id].is_motion_detection_enabled` (the cached flag, absent
before the first motion update). -/
def is_motion_detection_enabled (reg : Registry) (camera_id : Nat) :
    Except LookupError (Option Bool) :=
  match dictGet? reg camera_id with
  | none => .error (.keyNotFound camera_id)
  | some cam => .ok (cam.motion.map MotionData.enabled)

/-- `enable_camera(camera_id)`: one `Camera Enable` call with
`{"idList": camera_id}`, returning `raw_data["success"]`. -/
def enable_camera (b : Backend) (reg : Registry) (camera_id : String) :
    Registry × List Request × Except TransportError Bool :=
  (reg, [Request.enable camera_id],
    (b.enableResponse camera_id).map SuccessResponse.success)

/-- `disable_camera(camera_id)`: one `Camera Disable` call with
`{"idList": camera_id}`, returning `raw_data["success"]`. -/
def disable_camera (b : Backend) (reg : Registry) (camera_id : String) :
    Registry × List Request × Except TransportError Bool :=
  (reg, [Request.disable camera_id],
    (b.disableResponse camera_id).map SuccessResponse.success)

/-- `int(save)` — the API requires an integer instead of a boolean. -/
def pyIntOfBool (save : Bool) : Nat :=
  if save then 1 else 0

/-- `capture_camera_image(camera_id, save)`: one `TakeSnapshot` call with
`{"camId": camera_id, "blSave": int(save)}`, returning the raw response. -/
def capture_camera_image (b : Backend) (reg : Registry) (camera_id : Nat)
    (save : Bool) : Registry × List Request × Except TransportError RawResponse :=
  (reg, [Request.takeSnapshot camera_id (pyIntOfBool save)],
    b.takeSnapshotResponse camera_id (pyIntOfBool save))

/-- `download_snapshot(snapshot_id, snapshot_size)`: one `LoadSnapshot`
call with `{"id": snapshot_id, "imgSize": snapshot_size}`, returning the
raw response. -/
def download_snapshot (b : Backend) (reg : Registry) (snapshot_id : Nat)
    (snapshot_size : Nat) : Registry × List Request × Except TransportError RawResponse :=
  (reg, [Request.loadSnapshot snapshot_id snapshot_size],
    b.loadSnapshotResponse snapshot_id snapshot_size)

/-- `enable_motion_detection(camera_id)`: one `MDParamSave` call with
`source = MOTION_DETECTION_BY_SURVEILLANCE`. -/
def enable_motion_detection (b : Backend) (reg : Registry) (camera_id : Nat) :
    Registry × List Request × Except TransportError RawResponse :=
  (reg, [Request.mdParamSave camera_id .bySurveillance],
    b.mdParamSaveResponse camera_id .bySurveillance)

/-- `disable_motion_detection(camera_id)`: one `MDParamSave` call with
`source = MOTION_DETECTION_DISABLED`. -/
def disable_motion_detection (b : Backend) (reg : Registry) (camera_id : Nat) :
    Registry × List Request × Except TransportError RawResponse :=
  (reg, [Request.mdParamSave camera_id .disabled],
    b.mdParamSaveResponse camera_id .disabled)

/-- `get_home_mode_status()`: one `HomeMode GetInfo` call, returning
`raw_data["data"]["on"]`. -/
def get_home_mode_status (b : Backend) (reg : Registry) :
    Registry × List Request × Except TransportError Bool :=
  (reg, [Request.homeModeGetInfo],
    b.homeModeInfoResponse.map HomeModeData.onState)

/-- `str(state)` for a Python bool. -/
def pyStrOfBool (state : Bool) : String :=
  if state then "True" else "False"

/-- `str.lower()` of Python: character-wise lowercasing (ASCII is all the
facade ever lowercases). -/
def pyLower (s : String) : String :=
  ⟨s.data.map Char.toLower⟩

/-- `set_home_mode(state)`: one `HomeMode Switch` call with
`{"on": str(state).lower()}`, returning `raw_data["success"]`. -/
def set_home_mode (b : Backend) (reg : Registry) (state : Bool) :
    Registry × List Request × Except TransportError Bool :=
  (reg, [Request.homeModeSwitch (pyLower (pyStrOfBool state))],
    (b.homeModeSwitchResponse (pyLower (pyStrOfBool state))).map
      SuccessResponse.success)

/-- The camera list carried by the backend's `Camera List` response
(empty when that response is a transport error). -/
def listCameras (b : Backend) : List CameraData :=
  match b.listResponse with
  | .ok ld => ld.cameras
  | .error _ => []

/-- The records carried by the backend's `GetLiveViewPath` response for a
given `idList` (empty when that response is a transport error). -/
def liveViewRecords (b : Backend) (idStr : String) : List LiveViewRecord :=
  match b.liveViewResponse idStr with
  | .ok lvs => lvs
  | .error _ => []

/-- Camera `k` is in the registry with its live-view entity populated. -/
def livePopulated (reg : Registry) (k : Nat) : Prop :=
  ∃ cam, dictGet? reg k = some cam ∧ cam.live_view.isSome = true

/-- A live-view path entity used by the concrete test backends. -/
def somePaths : LiveViewData :=
  ⟨"mjpeg", "mcast", "mxpeg", "rtsph", "rtsp"⟩

/-- A backend whose every response succeeds with fixed data and whose
camera list is empty; the concrete test backends below are variations
of it. -/
def baseBackend : Backend where
  listResponse := Except.ok ⟨[]⟩
  motionResponse := fun _ => Except.ok ⟨true⟩
  liveViewResponse := fun _ => Except.ok []
  enableResponse := fun _ => Except.ok ⟨true⟩
  disableResponse := fun _ => Except.ok ⟨false⟩
  takeSnapshotResponse := fun _ _ => Except.ok ⟨"snap"⟩
  loadSnapshotResponse := fun _ _ => Except.ok ⟨"img"⟩
  mdParamSaveResponse := fun _ _ => Except.ok ⟨"saved"⟩
  homeModeInfoResponse := Except.ok ⟨true⟩
  homeModeSwitchResponse := fun _ => Except.ok ⟨true⟩

/-- A backend listing one camera (ID 1) whose live-view call returns a
record for it. -/
def goodBackend : Backend :=
  { baseBackend with
    listResponse := Except.ok ⟨[⟨1, "cam1"⟩]⟩
    liveViewResponse := fun _ => Except.ok [⟨1, somePaths⟩] }

/-- A backend listing one camera (ID 1) whose live-view call succeeds but
returns no record for it. -/
def emptyLvBackend : Backend :=
  { baseBackend with
    listResponse := Except.ok ⟨[⟨1, "cam1"⟩]⟩ }

/-- A backend listing one camera (ID 1) whose live-view call returns a
record for an unknown camera (ID 2). -/
def strayLvBackend : Backend :=
  { baseBackend with
    listResponse := Except.ok ⟨[⟨1, "cam1"⟩]⟩
    liveViewResponse := fun _ => Except.ok [⟨2, somePaths⟩] }

/-- A backend whose `Camera List` call fails. -/
def listErrBackend : Backend :=
  { baseBackend with listResponse := Except.error ⟨"boom"⟩ }

/-- A registry holding one camera (ID 5), used as a prior state. -/
def priorReg : Registry :=
  [(5, SynoCamera.ofData ⟨5, "old"⟩)]

/-! ### Registry (Python dict) lemmas -/

@[simp]
theorem regKeys_nil : regKeys [] = [] := rfl

@[simp]
theorem regKeys_cons (p : Nat × SynoCamera) (rest : Registry) :
    regKeys (p :: rest) = p.1 :: regKeys rest := rfl

theorem dictGet?_dictSet_self (reg : Registry) (k : Nat) (v : SynoCamera) :
    dictGet? (dictSet reg k v) k = some v := by
  induction reg with
  | nil => simp [dictSet, dictGet?]
  | cons p rest ih =>
    obtain ⟨a, c⟩ := p
    by_cases h : a = k
    · simp [dictSet, dictGet?, h]
    · simp [dictSet, dictGet?, h, ih]

theorem dictGet?_dictSet_ne (reg : Registry) {k k' : Nat} (v : SynoCamera)
    (h : k' ≠ k) : dictGet? (dictSet reg k v) k' = dictGet? reg k' := by
  induction reg with
  | nil => simp [dictSet, dictGet?, Ne.symm h]
  | cons p rest ih =>
    obtain ⟨a, c⟩ := p
    by_cases ha : a = k
    · subst ha
      simp [dictSet, dictGet?, Ne.symm h]
    · by_cases ha' : a = k'
      · subst ha'
        simp [dictSet, dictGet?, ha, h]
      · simp [dictSet, dictGet?, ha, ha', ih]

theorem mem_regKeys_dictSet (reg : Registry) (k k' : Nat) (v : SynoCamera) :
    k' ∈ regKeys (dictSet reg k v) ↔ k' = k ∨ k' ∈ regKeys reg := by
  induction reg with
  | nil => simp [dictSet, regKeys]
  | cons p rest ih =>
    obtain ⟨a, c⟩ := p
    by_cases h : a = k
    · subst h
      simp [dictSet]
    · simp [dictSet, h, ih]
      tauto

theorem regKeys_dictSet_of_mem (reg : Registry) {k : Nat} (v : SynoCamera)
    (h : k ∈ regKeys reg) : regKeys (dictSet reg k v) = regKeys reg := by
  induction reg with
  | nil => simp at h
  | cons p rest ih =>
    obtain ⟨a, c⟩ := p
    by_cases ha : a = k
    · subst ha
      simp [dictSet]
    · simp only [regKeys_cons, List.mem_cons] at h
      rcases h with h | h
      · exact absurd h.symm ha
      · simp [dictSet, ha, ih h]

theorem dictGet?_isSome_iff (reg : Registry) (k : Nat) :
    (dictGet? reg k).isSome = true ↔ k ∈ regKeys reg := by
  induction reg with
  | nil => simp [dictGet?, regKeys]
  | cons p rest ih =>
    obtain ⟨a, c⟩ := p
    by_cases h : a = k
    · simp [dictGet?, regKeys, h]
    · simp [dictGet?, regKeys, h, ih, Ne.symm h]

theorem dictGet?_eq_none_iff (reg : Registry) (k : Nat) :
    dictGet? reg k = none ↔ k ∉ regKeys reg := by
  rw [← dictGet?_isSome_iff]
  cases dictGet? reg k <;> simp

theorem regKeys_eq_nil_iff (reg : Registry) : regKeys reg = [] ↔ reg = [] := by
  cases reg <;> simp [regKeys]

theorem isEmpty_eq_regKeys_isEmpty (reg : Registry) :
    reg.isEmpty = (regKeys reg).isEmpty := by
  cases reg <;> simp [regKeys]

/-! ### List-step lemmas -/

theorem applyListData_nil (reg : Registry) : applyListData reg [] = reg := rfl

theorem applyListData_cons (reg : Registry) (cd : CameraData)
    (cams : List CameraData) :
    applyListData reg (cd :: cams) = applyListData (listStep reg cd) cams := rfl

theorem mem_regKeys_listStep (r : Registry) (cd : CameraData) (k : Nat) :
    k ∈ regKeys (listStep r cd) ↔ k = cd.id ∨ k ∈ regKeys r := by
  cases h : dictGet? r cd.id <;>
    simp [listStep, h, mem_regKeys_dictSet]

theorem mem_regKeys_applyListData (cams : List CameraData) (reg : Registry)
    (k : Nat) :
    k ∈ regKeys (applyListData reg cams) ↔
      k ∈ regKeys reg ∨ k ∈ cams.map CameraData.id := by
  induction cams generalizing reg with
  | nil => simp [applyListData_nil]
  | cons cd cams ih =>
    rw [applyListData_cons, ih]
    simp [mem_regKeys_listStep]
    tauto

/-! ### Motion-step lemmas -/

theorem regKeys_motionSteps (b : Backend) (ks : List Nat) (reg : Registry) :
    regKeys (motionSteps b reg ks).1 = regKeys reg := by
  induction ks generalizing reg with
  | nil => rfl
  | cons k ks ih =>
    cases hm : b.motionResponse k with
    | error e => simp [motionSteps, hm]
    | ok md =>
      cases hg : dictGet? reg k with
      | none => simp [motionSteps, hm, hg, ih]
      | some cam =>
        have hk : k ∈ regKeys reg := by
          rw [← dictGet?_isSome_iff]
          simp [hg]
        simp [motionSteps, hm, hg, ih,
          regKeys_dictSet_of_mem reg (cam.updateMotion md) hk]

theorem dictGet?_map_data_motionSteps (b : Backend) (ks : List Nat)
    (reg : Registry) (x : Nat) :
    (dictGet? (motionSteps b reg ks).1 x).map SynoCamera.data
      = (dictGet? reg x).map SynoCamera.data := by
  induction ks generalizing reg with
  | nil => rfl
  | cons k ks ih =>
    cases hm : b.motionResponse k with
    | error e => simp [motionSteps, hm]
    | ok md =>
      cases hg : dictGet? reg k with
      | none => simp [motionSteps, hm, hg, ih]
      | some cam =>
        have hstep : (motionSteps b reg (k :: ks)).1
            = (motionSteps b (dictSet reg k (cam.updateMotion md)) ks).1 := by
          simp [motionSteps, hm, hg]
        rw [hstep, ih]
        by_cases hx : x = k
        · subst hx
          rw [dictGet?_dictSet_self, hg]
          rfl
        · rw [dictGet?_dictSet_ne reg (cam.updateMotion md) hx]

theorem motionSteps_trace_no_liveView (b : Backend) (ks : List Nat)
    (reg : Registry) :
    ((motionSteps b reg ks).2.1).filter Request.isLiveViewReq = [] := by
  induction ks generalizing reg with
  | nil => rfl
  | cons k ks ih =>
    cases hm : b.motionResponse k with
    | error e => simp [motionSteps, hm, Request.isLiveViewReq]
    | ok md =>
      cases hg : dictGet? reg k <;>
        simp [motionSteps, hm, hg, Request.isLiveViewReq, ih]

/-! ### Live-view apply-loop lemmas -/

theorem regKeys_applyLiveViews (lvs : List LiveViewRecord) (reg : Registry) :
    regKeys (applyLiveViews reg lvs).1 = regKeys reg := by
  induction lvs generalizing reg with
  | nil => rfl
  | cons lv lvs ih =>
    cases hg : dictGet? reg lv.id with
    | none => simp [applyLiveViews, hg]
    | some cam =>
      have hk : lv.id ∈ regKeys reg := by
        rw [← dictGet?_isSome_iff]
        simp [hg]
      simp [applyLiveViews, hg, ih,
        regKeys_dictSet_of_mem reg (cam.applyLiveView lv) hk]

theorem dictGet?_map_data_applyLiveViews (lvs : List LiveViewRecord)
    (reg : Registry) (x : Nat) :
    (dictGet? (applyLiveViews reg lvs).1 x).map SynoCamera.data
      = (dictGet? reg x).map SynoCamera.data := by
  induction lvs generalizing reg with
  | nil => rfl
  | cons lv lvs ih =>
    cases hg : dictGet? reg lv.id with
    | none => simp [applyLiveViews, hg]
    | some cam =>
      have hstep : (applyLiveViews reg (lv :: lvs)).1
          = (applyLiveViews (dictSet reg lv.id (cam.applyLiveView lv)) lvs).1 := by
        simp [applyLiveViews, hg]
      rw [hstep, ih]
      by_cases hx : x = lv.id
      · subst hx
        rw [dictGet?_dictSet_self, hg]
        rfl
      · rw [dictGet?_dictSet_ne reg (cam.applyLiveView lv) hx]

theorem applyLiveViews_err_none (lvs : List LiveViewRecord) :
    ∀ reg : Registry, (∀ lv ∈ lvs, lv.id ∈ regKeys reg) →
      (applyLiveViews reg lvs).2 = none := by
  induction lvs with
  | nil => intro reg _; rfl
  | cons lv lvs ih =>
    intro reg h
    have hk := h lv (List.mem_cons_self lv lvs)
    rcases Option.isSome_iff_exists.mp
        ((dictGet?_isSome_iff reg lv.id).mpr hk) with ⟨cam, hg⟩
    rw [applyLiveViews]
    simp only [hg]
    apply ih
    intro lv' hlv'
    rw [regKeys_dictSet_of_mem reg (cam.applyLiveView lv) hk]
    exact h lv' (List.mem_cons_of_mem _ hlv')

theorem applyLiveViews_err_of_stray (lvs : List LiveViewRecord) :
    ∀ reg : Registry, (∃ lv ∈ lvs, lv.id ∉ regKeys reg) →
      ∃ i, (applyLiveViews reg lvs).2 = some i ∧ i ∉ regKeys reg := by
  induction lvs with
  | nil => intro reg h; simp at h
  | cons lv lvs ih =>
    intro reg h
    cases hg : dictGet? reg lv.id with
    | none =>
      refine ⟨lv.id, ?_, (dictGet?_eq_none_iff reg lv.id).mp hg⟩
      simp [applyLiveViews, hg]
    | some cam =>
      have hk : lv.id ∈ regKeys reg := by
        rw [← dictGet?_isSome_iff]
        simp [hg]
      rcases h with ⟨lv', hmem, hnot⟩
      rcases List.mem_cons.mp hmem with rfl | hmem'
      · exact absurd hk hnot
      · have h' : ∃ l ∈ lvs,
            l.id ∉ regKeys (dictSet reg lv.id (cam.applyLiveView lv)) := by
          refine ⟨lv', hmem', ?_⟩
          rw [regKeys_dictSet_of_mem reg (cam.applyLiveView lv) hk]
          exact hnot
        rcases ih _ h' with ⟨i, hi, hik⟩
        refine ⟨i, ?_, ?_⟩
        · simp [applyLiveViews, hg, hi]
        · rw [regKeys_dictSet_of_mem reg (cam.applyLiveView lv) hk] at hik
          exact hik

theorem livePopulated_applyLiveViews_mono (lvs : List LiveViewRecord) :
    ∀ (reg : Registry) (k : Nat), livePopulated reg k →
      livePopulated (applyLiveViews reg lvs).1 k := by
  induction lvs with
  | nil => intro reg k h; exact h
  | cons lv lvs ih =>
    intro reg k h
    cases hg : dictGet? reg lv.id with
    | none => simpa [applyLiveViews, hg] using h
    | some cam =>
      rw [applyLiveViews]
      simp only [hg]
      apply ih
      by_cases hk : k = lv.id
      · subst hk
        exact ⟨cam.applyLiveView lv, dictGet?_dictSet_self reg lv.id _,
          by simp [SynoCamera.applyLiveView]⟩
      · rcases h with ⟨c, hc, hs⟩
        refine ⟨c, ?_, hs⟩
        rw [dictGet?_dictSet_ne reg (cam.applyLiveView lv) hk]
        exact hc

theorem livePopulated_applyLiveViews_of_mem (lvs : List LiveViewRecord) :
    ∀ (lv : LiveViewRecord) (reg : Registry), lv ∈ lvs → lv.id ∈ regKeys reg →
      (applyLiveViews reg lvs).2 = none →
      livePopulated (applyLiveViews reg lvs).1 lv.id := by
  induction lvs with
  | nil => intro lv reg hmem; simp at hmem
  | cons lv0 lvs ih =>
    intro lv reg hmem hk herr
    cases hg : dictGet? reg lv0.id with
    | none =>
      rw [applyLiveViews] at herr
      simp [hg] at herr
    | some cam =>
      have hk0 : lv0.id ∈ regKeys reg := by
        rw [← dictGet?_isSome_iff]
        simp [hg]
      rw [applyLiveViews] at herr ⊢
      simp only [hg] at herr ⊢
      rcases List.mem_cons.mp hmem with rfl | hmem'
      · apply livePopulated_applyLiveViews_mono
        exact ⟨cam.applyLiveView lv, dictGet?_dictSet_self reg lv.id _,
          by simp [SynoCamera.applyLiveView]⟩
      · apply ih lv _ hmem' _ herr
        rw [regKeys_dictSet_of_mem reg (cam.applyLiveView lv0) hk0]
        exact hk

/-! ### Live-view step and `update` decomposition lemmas -/

theorem liveViewStep_empty (b : Backend) (reg : Registry)
    (he : reg.isEmpty = true) : liveViewStep b reg = (reg, [], none) := by
  rw [liveViewStep]
  simp [he]

theorem liveViewStep_err (b : Backend) (reg : Registry) (e : TransportError)
    (hne : reg.isEmpty = false)
    (hl : b.liveViewResponse (commaJoin (regKeys reg)) = Except.error e) :
    liveViewStep b reg
      = (reg, [Request.getLiveViewPath (commaJoin (regKeys reg))],
          some (.transport e)) := by
  rw [liveViewStep]
  simp [hne, hl]

theorem liveViewStep_ok (b : Backend) (reg : Registry) (lvs : List LiveViewRecord)
    (hne : reg.isEmpty = false)
    (hl : b.liveViewResponse (commaJoin (regKeys reg)) = Except.ok lvs) :
    liveViewStep b reg
      = ((applyLiveViews reg lvs).1,
          [Request.getLiveViewPath (commaJoin (regKeys reg))],
          ((applyLiveViews reg lvs).2).map UpdateError.keyNotFound) := by
  rw [liveViewStep]
  simp [hne, hl]

theorem update_list_err (b : Backend) (prior : Registry) (e : TransportError)
    (hl : b.listResponse = Except.error e) :
    update b prior = ([], [Request.list 7], some (.transport e)) := by
  unfold update
  rw [hl]

theorem update_ok_motion_err (b : Backend) (prior : Registry) (ld : ListData)
    (e : TransportError)
    (hl : b.listResponse = Except.ok ld)
    (hm : (motionSteps b (applyListData [] ld.cameras)
            (regKeys (applyListData [] ld.cameras))).2.2 = some e) :
    update b prior
      = ((motionSteps b (applyListData [] ld.cameras)
            (regKeys (applyListData [] ld.cameras))).1,
         Request.list 7 :: (motionSteps b (applyListData [] ld.cameras)
            (regKeys (applyListData [] ld.cameras))).2.1,
         some (.transport e)) := by
  unfold update
  rw [hl]
  dsimp only
  rw [hm]

theorem update_ok_motion_none (b : Backend) (prior : Registry) (ld : ListData)
    (hl : b.listResponse = Except.ok ld)
    (hm : (motionSteps b (applyListData [] ld.cameras)
            (regKeys (applyListData [] ld.cameras))).2.2 = none) :
    update b prior
      = ((liveViewStep b (motionSteps b (applyListData [] ld.cameras)
            (regKeys (applyListData [] ld.cameras))).1).1,
         Request.list 7 :: ((motionSteps b (applyListData [] ld.cameras)
            (regKeys (applyListData [] ld.cameras))).2.1
          ++ (liveViewStep b (motionSteps b (applyListData [] ld.cameras)
            (regKeys (applyListData [] ld.cameras))).1).2.1),
         (liveViewStep b (motionSteps b (applyListData [] ld.cameras)
            (regKeys (applyListData [] ld.cameras))).1).2.2) := by
  unfold update
  rw [hl]
  dsimp only
  rw [hm]

theorem isEmpty_false_of_mem (reg : Registry) (k : Nat)
    (h : k ∈ regKeys reg) : reg.isEmpty = false := by
  cases reg with
  | nil => simp at h
  | cons p rest => rfl

theorem regKeys_liveViewStep (b : Backend) (reg : Registry) :
    regKeys (liveViewStep b reg).1 = regKeys reg := by
  cases he : reg.isEmpty with
  | true => rw [liveViewStep_empty b reg he]
  | false =>
    cases hl : b.liveViewResponse (commaJoin (regKeys reg)) with
    | error e => rw [liveViewStep_err b reg e he hl]
    | ok lvs =>
      rw [liveViewStep_ok b reg lvs he hl]
      exact regKeys_applyLiveViews lvs reg

theorem dictGet?_map_data_liveViewStep (b : Backend) (reg : Registry) (x : Nat) :
    (dictGet? (liveViewStep b reg).1 x).map SynoCamera.data
      = (dictGet? reg x).map SynoCamera.data := by
  cases he : reg.isEmpty with
  | true => rw [liveViewStep_empty b reg he]
  | false =>
    cases hl : b.liveViewResponse (commaJoin (regKeys reg)) with
    | error e => rw [liveViewStep_err b reg e he hl]
    | ok lvs =>
      rw [liveViewStep_ok b reg lvs he hl]
      exact dictGet?_map_data_applyLiveViews lvs reg x

theorem update_ok_keys (b : Backend) (prior : Registry) (ld : ListData)
    (hl : b.listResponse = Except.ok ld) :
    regKeys (update b prior).1 = regKeys (applyListData [] ld.cameras) := by
  cases hm : (motionSteps b (applyListData [] ld.cameras)
      (regKeys (applyListData [] ld.cameras))).2.2 with
  | some e =>
    rw [update_ok_motion_err b prior ld e hl hm]
    exact regKeys_motionSteps b _ _
  | none =>
    rw [update_ok_motion_none b prior ld hl hm]
    rw [regKeys_liveViewStep, regKeys_motionSteps]

theorem update_ok_data (b : Backend) (prior : Registry) (ld : ListData)
    (hl : b.listResponse = Except.ok ld) (x : Nat) :
    (dictGet? (update b prior).1 x).map SynoCamera.data
      = (dictGet? (applyListData [] ld.cameras) x).map SynoCamera.data := by
  cases hm : (motionSteps b (applyListData [] ld.cameras)
      (regKeys (applyListData [] ld.cameras))).2.2 with
  | some e =>
    rw [update_ok_motion_err b prior ld e hl hm]
    exact dictGet?_map_data_motionSteps b _ _ _
  | none =>
    rw [update_ok_motion_none b prior ld hl hm]
    rw [dictGet?_map_data_liveViewStep, dictGet?_map_data_motionSteps]

/-! ### Claim theorems -/

/-- C2: for every camera list response whose `cameras` array is empty,
`update()` leaves the registry empty, returns early after the list step
(the trace is exactly the one `Camera List` request, so no `MotionEnum`
call either), and issues no `GetLiveViewPath` request. -/
theorem update_empty_list (b : Backend) (prior : Registry) (ld : ListData)
    (hl : b.listResponse = Except.ok ld) (hc : ld.cameras = []) :
    (update b prior).1 = [] ∧ (update b prior).2.1 = [Request.list 7] ∧
      (update b prior).2.2 = none := by
  have hld : ld = ⟨[]⟩ := by
    cases ld
    simp_all
  subst hld
  rw [update_ok_motion_none b prior ⟨[]⟩ hl rfl]
  exact ⟨rfl, rfl, rfl⟩

/-- Witness for C2 at a concrete backend whose camera list is empty. -/
theorem update_empty_list_witness :
    (update baseBackend priorReg).1 = [] ∧
      (update baseBackend priorReg).2.1 = [Request.list 7] ∧
      (update baseBackend priorReg).2.2 = none :=
  update_empty_list baseBackend priorReg ⟨[]⟩ rfl rfl

/-- C4: `update()` clears the registry before processing the list response
(the first request is the `Camera List` call with `max_version = 7`), so a
camera ID present in the prior registry but absent from the new list
response is absent from the registry after the call. -/
theorem update_drops_stale (b : Backend) (prior : Registry) (k : Nat)
    (hk : k ∈ regKeys prior)
    (habs : k ∉ (listCameras b).map CameraData.id) :
    k ∉ regKeys (update b prior).1 ∧
      (update b prior).2.1.head? = some (Request.list 7) := by
  cases hl : b.listResponse with
  | error e =>
    rw [update_list_err b prior e hl]
    simp
  | ok ld =>
    have hlc : listCameras b = ld.cameras := by
      unfold listCameras
      rw [hl]
    refine ⟨?_, ?_⟩
    · rw [update_ok_keys b prior ld hl, mem_regKeys_applyListData]
      rw [hlc] at habs
      simp [habs]
    · cases hm : (motionSteps b (applyListData [] ld.cameras)
          (regKeys (applyListData [] ld.cameras))).2.2 with
      | some e =>
        rw [update_ok_motion_err b prior ld e hl hm]
        rfl
      | none =>
        rw [update_ok_motion_none b prior ld hl hm]
        rfl

/-- Witness for C4: camera 5 is in the prior registry, the new list is
empty, and 5 is gone after the call. -/
theorem update_drops_stale_witness :
    5 ∉ regKeys (update baseBackend priorReg).1 ∧
      (update baseBackend priorReg).2.1.head? = some (Request.list 7) :=
  update_drops_stale baseBackend priorReg 5 (by decide) (by decide)

/-- C5: `update()` is idempotent with an unchanged backend: the registry
after a second call equals the registry after the first (the prior registry
is discarded by `self._data = {}`, so the result depends only on the
backend's responses). -/
theorem update_idempotent (b : Backend) (reg : Registry) :
    (update b (update b reg).1).1 = (update b reg).1 := rfl

/-- C6: `get_camera` on an ID that is not a registry key fails with a
key-not-found error rather than returning a default, and so does
`is_motion_detection_enabled`. -/
theorem absent_camera_lookup_fails (reg : Registry) (camera_id : Nat)
    (h : camera_id ∉ regKeys reg) :
    get_camera reg camera_id
        = Except.error (LookupError.keyNotFound camera_id) ∧
      is_motion_detection_enabled reg camera_id
        = Except.error (LookupError.keyNotFound camera_id) := by
  have hg := (dictGet?_eq_none_iff reg camera_id).mpr h
  constructor <;> simp [get_camera, is_motion_detection_enabled, hg]

/-- Witness for C6: looking up camera 1 in a registry holding only
camera 5. -/
theorem absent_camera_lookup_fails_witness :
    get_camera priorReg 1 = Except.error (LookupError.keyNotFound 1) ∧
      is_motion_detection_enabled priorReg 1
        = Except.error (LookupError.keyNotFound 1) :=
  absent_camera_lookup_fails priorReg 1 (by decide)

/-- C8: `enable_camera` and `disable_camera` forward the given `camera_id`
string verbatim as the `idList` parameter of the `Camera Enable`/`Disable`
action, and each returns the response's `success` boolean. -/
theorem enable_disable_forward_verbatim (b : Backend) (reg : Registry)
    (camera_id : String) :
    (enable_camera b reg camera_id).2.1 = [Request.enable camera_id] ∧
      (disable_camera b reg camera_id).2.1 = [Request.disable camera_id] ∧
      (∀ r, b.enableResponse camera_id = Except.ok r →
        (enable_camera b reg camera_id).2.2 = Except.ok r.success) ∧
      (∀ r, b.disableResponse camera_id = Except.ok r →
        (disable_camera b reg camera_id).2.2 = Except.ok r.success) := by
  refine ⟨rfl, rfl, ?_, ?_⟩ <;> intro r h <;>
    simp [enable_camera, disable_camera, h, Except.map]

/-- Witness for C8 at a comma-joined multi-ID string. -/
theorem enable_disable_forward_verbatim_witness :
    (enable_camera baseBackend priorReg "1,2,3").2.1
        = [Request.enable "1,2,3"] ∧
      (enable_camera baseBackend priorReg "1,2,3").2.2 = Except.ok true := by
  have h := enable_disable_forward_verbatim baseBackend priorReg "1,2,3"
  exact ⟨h.1, h.2.2.1 ⟨true⟩ rfl⟩

/-- C9: `set_home_mode true` sends `"true"` and `set_home_mode false`
sends `"false"` as the `on` parameter of the `HomeMode Switch` action
(Python's `str(state).lower()`), and each returns the response's `success`
boolean. -/
theorem set_home_mode_serialization (b : Backend) (reg : Registry) :
    (set_home_mode b reg true).2.1 = [Request.homeModeSwitch "true"] ∧
      (set_home_mode b reg false).2.1 = [Request.homeModeSwitch "false"] ∧
      (∀ r, b.homeModeSwitchResponse "true" = Except.ok r →
        (set_home_mode b reg true).2.2 = Except.ok r.success) ∧
      (∀ r, b.homeModeSwitchResponse "false" = Except.ok r →
        (set_home_mode b reg false).2.2 = Except.ok r.success) := by
  have ht : pyLower (pyStrOfBool true) = "true" := by decide
  have hf : pyLower (pyStrOfBool false) = "false" := by decide
  refine ⟨?_, ?_, ?_, ?_⟩
  · simp [set_home_mode, ht]
  · simp [set_home_mode, hf]
  · intro r h
    simp [set_home_mode, ht, h, Except.map]
  · intro r h
    simp [set_home_mode, hf, h, Except.map]

/-- Witness for C9 at a concrete backend. -/
theorem set_home_mode_serialization_witness :
    (set_home_mode baseBackend priorReg true).2.1
        = [Request.homeModeSwitch "true"] ∧
      (set_home_mode baseBackend priorReg true).2.2 = Except.ok true := by
  have h := set_home_mode_serialization baseBackend priorReg
  exact ⟨h.1, h.2.2.1 ⟨true⟩ rfl⟩

/-- C10: every mutating remote-state operation is a single
request-response (its trace has exactly one request) and leaves the local
camera registry unchanged. -/
theorem mutating_ops_preserve_registry (b : Backend) (reg : Registry)
    (ids : String) (camId snapId size : Nat) (save state : Bool) :
    (enable_camera b reg ids).1 = reg ∧
      (enable_camera b reg ids).2.1.length = 1 ∧
      (disable_camera b reg ids).1 = reg ∧
      (disable_camera b reg ids).2.1.length = 1 ∧
      (capture_camera_image b reg camId save).1 = reg ∧
      (capture_camera_image b reg camId save).2.1.length = 1 ∧
      (download_snapshot b reg snapId size).1 = reg ∧
      (download_snapshot b reg snapId size).2.1.length = 1 ∧
      (enable_motion_detection b reg camId).1 = reg ∧
      (enable_motion_detection b reg camId).2.1.length = 1 ∧
      (disable_motion_detection b reg camId).1 = reg ∧
      (disable_motion_detection b reg camId).2.1.length = 1 ∧
      (get_home_mode_status b reg).1 = reg ∧
      (get_home_mode_status b reg).2.1.length = 1 ∧
      (set_home_mode b reg state).1 = reg ∧
      (set_home_mode b reg state).2.1.length = 1 :=
  ⟨rfl, rfl, rfl, rfl, rfl, rfl, rfl, rfl, rfl, rfl, rfl, rfl, rfl, rfl,
    rfl, rfl⟩

/-- C3: transport failures inside `update()` propagate unchanged and the
registry is not rolled back. A `Camera List` failure leaves the cleared
(empty) registry. Once the list step succeeded, the final registry holds
exactly the keys created from the list step with their list data intact,
whatever happens later; a failing `MotionEnum` call and a failing
`GetLiveViewPath` call each surface as that same transport error. -/
theorem update_failure_propagation (b : Backend) (prior : Registry) :
    (∀ e, b.listResponse = Except.error e →
      update b prior = ([], [Request.list 7], some (UpdateError.transport e))) ∧
    (∀ ld, b.listResponse = Except.ok ld →
      regKeys (update b prior).1 = regKeys (applyListData [] ld.cameras) ∧
      (∀ x, (dictGet? (update b prior).1 x).map SynoCamera.data
          = (dictGet? (applyListData [] ld.cameras) x).map SynoCamera.data) ∧
      (∀ e, (motionSteps b (applyListData [] ld.cameras)
              (regKeys (applyListData [] ld.cameras))).2.2 = some e →
        (update b prior).2.2 = some (UpdateError.transport e)) ∧
      (∀ e, (motionSteps b (applyListData [] ld.cameras)
              (regKeys (applyListData [] ld.cameras))).2.2 = none →
        (motionSteps b (applyListData [] ld.cameras)
              (regKeys (applyListData [] ld.cameras))).1.isEmpty = false →
        b.liveViewResponse (commaJoin (regKeys (motionSteps b
              (applyListData [] ld.cameras)
              (regKeys (applyListData [] ld.cameras))).1))
            = Except.error e →
        (update b prior).2.2 = some (UpdateError.transport e))) := by
  refine ⟨?_, ?_⟩
  · intro e hl
    exact update_list_err b prior e hl
  · intro ld hl
    refine ⟨update_ok_keys b prior ld hl, update_ok_data b prior ld hl, ?_, ?_⟩
    · intro e hm
      rw [update_ok_motion_err b prior ld e hl hm]
    · intro e hm hne hlv
      rw [update_ok_motion_none b prior ld hl hm]
      rw [liveViewStep_err b _ e hne hlv]

/-- Witness for C3: a backend whose `Camera List` call fails leaves the
registry empty and surfaces the transport error unchanged. -/
theorem update_failure_propagation_witness :
    update listErrBackend priorReg
      = ([], [Request.list 7], some (UpdateError.transport ⟨"boom"⟩)) :=
  (update_failure_propagation listErrBackend priorReg).1 ⟨"boom"⟩ rfl

/-- C7: the live-view apply step indexes the registry directly by each
returned record's `id`. If the `GetLiveViewPath` response (here `lvs`)
contains a record whose `id` is not a registry key, `update()` fails with a
key-not-found error; if every returned `id` is a registry key, no such
error occurs. (The registry keys at the apply step equal
`regKeys (update b prior).1`, since the apply loop never changes keys.) -/
theorem update_liveview_key_safety (b : Backend) (prior : Registry)
    (ld : ListData) (lvs : List LiveViewRecord)
    (hl : b.listResponse = Except.ok ld)
    (hm : (motionSteps b (applyListData [] ld.cameras)
            (regKeys (applyListData [] ld.cameras))).2.2 = none)
    (hne : (motionSteps b (applyListData [] ld.cameras)
            (regKeys (applyListData [] ld.cameras))).1.isEmpty = false)
    (hlv : b.liveViewResponse (commaJoin (regKeys (motionSteps b
            (applyListData [] ld.cameras)
            (regKeys (applyListData [] ld.cameras))).1)) = Except.ok lvs) :
    ((∃ lv ∈ lvs, lv.id ∉ regKeys (update b prior).1) →
      ∃ i, (update b prior).2.2 = some (UpdateError.keyNotFound i)
        ∧ i ∉ regKeys (update b prior).1) ∧
    ((∀ lv ∈ lvs, lv.id ∈ regKeys (update b prior).1) →
      (update b prior).2.2 = none) := by
  rw [update_ok_motion_none b prior ld hl hm]
  rw [liveViewStep_ok b _ lvs hne hlv]
  simp only [regKeys_applyLiveViews]
  constructor
  · intro hstray
    rcases applyLiveViews_err_of_stray lvs _ hstray with ⟨i, hi, hik⟩
    exact ⟨i, by rw [hi]; rfl, hik⟩
  · intro hall
    rw [applyLiveViews_err_none lvs _ hall]
    rfl

/-- Witness for C7: every record of the live-view response matches a
registry key, so `update()` completes without error. -/
theorem update_liveview_key_safety_witness :
    (update goodBackend priorReg).2.2 = none :=
  (update_liveview_key_safety goodBackend priorReg ⟨[⟨1, "cam1"⟩]⟩
      [⟨1, somePaths⟩] rfl (by decide) (by decide) rfl).2 (by decide)

/-- C1 counterexample: a backend lists camera 1 (non-empty list), the
live-view call is made and succeeds, `update()` completes without any
failure — yet camera 1's live-view data is not populated, because the
`GetLiveViewPath` response contained no record for it. The claim's
conclusion fails at this input. -/
theorem update_populates_liveview_cex :
    emptyLvBackend.listResponse = Except.ok ⟨[⟨1, "cam1"⟩]⟩ ∧
      (update emptyLvBackend priorReg).2.1
        = [Request.list 7, Request.motionEnum 1, Request.getLiveViewPath "1"] ∧
      (update emptyLvBackend priorReg).2.2 = none ∧
      (dictGet? (update emptyLvBackend priorReg).1 1).map
          (fun c => c.live_view.isSome) = some false :=
  ⟨rfl, by decide, by decide, by decide⟩

/-- C1 (amended): after `update()` completes without failure on a
non-empty camera list, every camera ID returned by the list call is a key
of the registry, and `GetLiveViewPath` was called exactly once, with the
comma-joined list of all registry camera IDs — both unconditionally;
every listed camera's live-view data is populated provided the
`GetLiveViewPath` response contains a record for each listed camera ID. -/
theorem update_populates_liveview (b : Backend) (prior : Registry)
    (ld : ListData)
    (hl : b.listResponse = Except.ok ld)
    (hc : ld.cameras ≠ [])
    (hdone : (update b prior).2.2 = none) :
    (∀ cd ∈ ld.cameras, cd.id ∈ regKeys (update b prior).1) ∧
      (update b prior).2.1.filter Request.isLiveViewReq
        = [Request.getLiveViewPath (commaJoin (regKeys (update b prior).1))] ∧
      ((∀ cd ∈ ld.cameras,
          ∃ lv ∈ liveViewRecords b (commaJoin (regKeys (update b prior).1)),
            lv.id = cd.id) →
        ∀ cd ∈ ld.cameras, livePopulated (update b prior).1 cd.id) := by
  have hkeycam : ∀ cd ∈ ld.cameras,
      cd.id ∈ regKeys (motionSteps b (applyListData [] ld.cameras)
        (regKeys (applyListData [] ld.cameras))).1 := by
    intro cd hcd
    rw [regKeys_motionSteps, mem_regKeys_applyListData]
    exact Or.inr (List.mem_map_of_mem CameraData.id hcd)
  cases hm : (motionSteps b (applyListData [] ld.cameras)
      (regKeys (applyListData [] ld.cameras))).2.2 with
  | some e =>
    rw [update_ok_motion_err b prior ld e hl hm] at hdone
    exact absurd hdone (by simp)
  | none =>
    obtain ⟨cd0, hcd0⟩ := List.exists_mem_of_ne_nil ld.cameras hc
    have hne : (motionSteps b (applyListData [] ld.cameras)
        (regKeys (applyListData [] ld.cameras))).1.isEmpty = false :=
      isEmpty_false_of_mem _ _ (hkeycam cd0 hcd0)
    cases hlv : b.liveViewResponse (commaJoin (regKeys (motionSteps b
        (applyListData [] ld.cameras)
        (regKeys (applyListData [] ld.cameras))).1)) with
    | error e =>
      rw [update_ok_motion_none b prior ld hl hm,
        liveViewStep_err b _ e hne hlv] at hdone
      exact absurd hdone (by simp)
    | ok lvs =>
      rw [update_ok_motion_none b prior ld hl hm,
        liveViewStep_ok b _ lvs hne hlv] at hdone ⊢
      dsimp only at hdone ⊢
      rw [regKeys_applyLiveViews]
      have hrec : liveViewRecords b (commaJoin (regKeys (motionSteps b
          (applyListData [] ld.cameras)
          (regKeys (applyListData [] ld.cameras))).1)) = lvs := by
        unfold liveViewRecords
        rw [hlv]
      rw [hrec]
      have happ : (applyLiveViews (motionSteps b (applyListData [] ld.cameras)
          (regKeys (applyListData [] ld.cameras))).1 lvs).2 = none :=
        Option.map_eq_none'.mp hdone
      refine ⟨?_, ?_, ?_⟩
      · intro cd hcd
        exact hkeycam cd hcd
      · simp [List.filter_append, motionSteps_trace_no_liveView,
          Request.isLiveViewReq]
      · intro hcov cd hcd
        rcases hcov cd hcd with ⟨lv, hlvmem, hlvid⟩
        have hlvkey : lv.id ∈ regKeys (motionSteps b
            (applyListData [] ld.cameras)
            (regKeys (applyListData [] ld.cameras))).1 := by
          rw [hlvid]
          exact hkeycam cd hcd
        have := livePopulated_applyLiveViews_of_mem lvs lv _ hlvmem hlvkey happ
        rw [hlvid] at this
        exact this

/-- Witness for C1 (amended): one camera; the trace contains exactly one
`GetLiveViewPath` request, with the comma-joined registry key list. -/
theorem update_populates_liveview_witness :
    (update goodBackend priorReg).2.1.filter Request.isLiveViewReq
      = [Request.getLiveViewPath
          (commaJoin (regKeys (update goodBackend priorReg).1))] :=
  (update_populates_liveview goodBackend priorReg ⟨[⟨1, "cam1"⟩]⟩ rfl
    (by decide) (by decide)).2.1

end SurveillanceStation
